import Mathlib

/-!
Shallow embedding of the mowl logging backend (src/src/lib.rs).

The source is a `log`-facade backend: a `Logger` holding a `LevelFilter`
threshold and a color flag, a per-call `LogSink` (stderr terminal or plain
stderr fallback), and a formatting routine `log_result` that writes
timestamp, origin, level tag and message segments in order, each step
fallible and chained with the `?` operator.

External effects (terminal writes, stdout diagnostics) are modelled as
explicit traces; fallibility of the underlying stream is modelled by an
oracle `fail : Nat -> Option String` giving, for each underlying I/O
operation index, whether it fails and with which error message.  Wall-clock
time is modelled by passing the rendered RFC3339 timestamp string as a
parameter, since `time::now().rfc3339()` is an external input.
-/

namespace Mowl

/-- The five severity levels of the `log` crate, `log::Level`. -/
inductive Level
  | error
  | warn
  | info
  | debug
  | trace
  deriving DecidableEq, Repr

/-- Numeric representation of `log::Level` (its `usize` discriminant). -/
def Level.toNat : Level → Nat
  | .error => 1
  | .warn => 2
  | .info => 3
  | .debug => 4
  | .trace => 5

/-- `log::Level::as_str`, used by its `Display` impl: the upper-case tag. -/
def Level.display : Level → String
  | .error => "ERROR"
  | .warn => "WARN"
  | .info => "INFO"
  | .debug => "DEBUG"
  | .trace => "TRACE"

/-- `log::LevelFilter`: the five levels plus `Off`. -/
inductive LevelFilter
  | off
  | error
  | warn
  | info
  | debug
  | trace
  deriving DecidableEq, Repr

/-- Numeric representation of `log::LevelFilter` (its `usize` discriminant). -/
def LevelFilter.toNat : LevelFilter → Nat
  | .off => 0
  | .error => 1
  | .warn => 2
  | .info => 3
  | .debug => 4
  | .trace => 5

/-- The filter corresponding to a level (`log::Level::to_level_filter`). -/
def Level.toFilter : Level → LevelFilter
  | .error => .error
  | .warn => .warn
  | .info => .info
  | .debug => .debug
  | .trace => .trace

/-- The part of `log::Metadata` the backend reads: the record level. -/
structure Metadata where
  level : Level
  deriving DecidableEq, Repr

/-- The part of `log::Record` the backend reads: level, optional module
path and the formatted message (`args`). -/
structure Record where
  level : Level
  module_path : Option String
  args : String
  deriving DecidableEq, Repr

/-- `mowl::Logger`: configured threshold and color flag (lib.rs:99-102). -/
structure Logger where
  level : LevelFilter
  enable_colors : Bool
  deriving DecidableEq, Repr

/-- `Logger::enabled` (lib.rs:105-107): `metadata.level() <= self.level`,
the `log` crate comparing `Level` with `LevelFilter` by discriminant. -/
def Logger.enabled (l : Logger) (m : Metadata) : Bool :=
  decide (m.level.toNat ≤ l.level.toNat)

/-- The two variants of `mowl::LogSink` (lib.rs:156-161). -/
inductive SinkVariant
  | Terminal
  | Fallback
  deriving DecidableEq, Repr

/-- One item actually emitted on the sink's underlying stream: a
foreground-color escape, a style-reset escape, or literal text. -/
inductive OutItem
  | escFg (c : Nat)
  | escReset
  | text (s : String)
  deriving DecidableEq, Repr

/-- State of one sink run: items written so far and the index of the next
underlying I/O operation (consulted by the failure oracle). -/
structure SinkRun where
  out : List OutItem
  idx : Nat
  deriving DecidableEq, Repr

/-- `LogSink::new` (lib.rs:164-170): `term::stderr()` available gives the
Terminal variant, otherwise the plain-stderr Fallback.  Total: it never
fails or panics.  Availability of a terminal handle is the external input
`avail`. -/
def LogSink.new (avail : Bool) : SinkVariant :=
  if avail then .Terminal else .Fallback

/-- One underlying I/O operation: consult the failure oracle at the current
index; on success append the item and advance. -/
def ioStep (fail : Nat → Option String) (item : OutItem) (s : SinkRun) :
    SinkRun × Option String :=
  match fail s.idx with
  | some e => (s, some e)
  | none => ({ out := s.out ++ [item], idx := s.idx + 1 }, none)

/-- `LogSink::fg` (lib.rs:172-177): writes the color escape on Terminal,
does nothing (and cannot fail) on Fallback. -/
def LogSink.fg (fail : Nat → Option String) (v : SinkVariant) (c : Nat)
    (s : SinkRun) : SinkRun × Option String :=
  match v with
  | .Terminal => ioStep fail (.escFg c) s
  | .Fallback => (s, none)

/-- `LogSink::reset` (lib.rs:179-184): writes the reset escape on Terminal,
does nothing (and cannot fail) on Fallback. -/
def LogSink.reset (fail : Nat → Option String) (v : SinkVariant)
    (s : SinkRun) : SinkRun × Option String :=
  match v with
  | .Terminal => ioStep fail .escReset s
  | .Fallback => (s, none)

/-- `write!`/`writeln!` through `LogSink`'s `Write` impl (lib.rs:188-223):
forwards the text to whichever underlying stream is active. -/
def LogSink.write (fail : Nat → Option String) (_v : SinkVariant)
    (str : String) (s : SinkRun) : SinkRun × Option String :=
  ioStep fail (.text str) s

/-- The `?` operator on a fallible sink step: short-circuit on error. -/
def andThen (r : SinkRun × Option String)
    (f : SinkRun → SinkRun × Option String) : SinkRun × Option String :=
  match r with
  | (s, none) => f s
  | (s, some e) => (s, some e)

/-- `term::color` constants used by the source (term crate values). -/
def BRIGHT_BLACK : Nat := 8

/-- term crate color constant. -/
def BRIGHT_RED : Nat := 9

/-- term crate color constant. -/
def BRIGHT_GREEN : Nat := 10

/-- term crate color constant. -/
def BRIGHT_YELLOW : Nat := 11

/-- term crate color constant. -/
def BRIGHT_BLUE : Nat := 12

/-- term crate color constant. -/
def BRIGHT_CYAN : Nat := 14

/-- term crate color constant. -/
def BRIGHT_WHITE : Nat := 15

/-- The level-to-color match inside `Logger::log_result` (lib.rs:132-140). -/
def levelColor : Level → Nat
  | .error => BRIGHT_RED
  | .warn => BRIGHT_YELLOW
  | .info => BRIGHT_GREEN
  | .debug => BRIGHT_CYAN
  | .trace => BRIGHT_WHITE

/-- `Logger::log_result` (lib.rs:121-147): acquire a fresh sink, then run
the fixed sequence of fallible steps chained by `?`.  Returns the sink
variant used, the items actually written, and the error that aborted the
run, if any. -/
def Logger.log_result (l : Logger) (fail : Nat → Option String)
    (avail : Bool) (r : Record) (ts : String) :
    SinkVariant × SinkRun × Option String :=
  let t := LogSink.new avail
  let s0 : SinkRun := { out := [], idx := 0 }
  let res :=
    andThen (if l.enable_colors then LogSink.fg fail t BRIGHT_BLACK s0 else (s0, none)) fun s =>
    andThen (LogSink.write fail t ("[" ++ ts ++ "] ") s) fun s =>
    andThen (if l.enable_colors then LogSink.fg fail t BRIGHT_BLUE s else (s, none)) fun s =>
    andThen (LogSink.write fail t ("[" ++ r.module_path.getD "?" ++ "] ") s) fun s =>
    andThen (if l.enable_colors then LogSink.fg fail t (levelColor r.level) s else (s, none)) fun s =>
    andThen (LogSink.write fail t ("[" ++ r.level.display ++ "] ") s) fun s =>
    andThen (if l.enable_colors then LogSink.reset fail t s else (s, none)) fun s =>
    LogSink.write fail t (r.args ++ "\n") s
  (t, res)

/-- One observable effect of a `log` call: acquiring a sink, the bytes
written to that sink, or a `println!` diagnostic line on standard output. -/
inductive LogEffect
  | acquireSink (v : SinkVariant)
  | sinkOut (items : List OutItem)
  | stdoutLine (s : String)
  deriving DecidableEq, Repr

/-- `Logger::log` (lib.rs:109-115): filter by `enabled`; if enabled run
`log_result`, and on error print `Logging failed: <e>` via `println!`
(standard output). -/
def Logger.log (l : Logger) (fail : Nat → Option String) (avail : Bool)
    (r : Record) (ts : String) : List LogEffect :=
  if l.enabled { level := r.level } then
    match l.log_result fail avail r ts with
    | (v, s, none) => [.acquireSink v, .sinkOut s.out]
    | (v, s, some e) => [.acquireSink v, .sinkOut s.out, .stdoutLine ("Logging failed: " ++ e)]
  else
    []

/-- The `log` facade's global registration state: the installed backend and
the global maximum level. -/
structure GlobalState where
  backend : Option Logger
  maxLevel : LevelFilter
  deriving DecidableEq, Repr

/-- The facade's registration error (`log::SetLoggerError`). -/
inductive SetLoggerError
  | alreadySet
  deriving DecidableEq, Repr

/-- Modelled from the spec: `log::set_boxed_logger` is not in this
repository; per the spec's registration contract it installs the logger as
the process-wide backend exactly once, failing with the already-installed
error and leaving the existing backend untouched on a second attempt. -/
def set_boxed_logger (l : Logger) (g : GlobalState) :
    GlobalState × Option SetLoggerError :=
  match g.backend with
  | some _ => (g, some .alreadySet)
  | none => ({ g with backend := some l }, none)

/-- Modelled from the spec: `log::set_max_level` is not in this repository;
it sets the facade's global maximum level. -/
def set_max_level (lf : LevelFilter) (g : GlobalState) : GlobalState :=
  { g with maxLevel := lf }

/-- `init_with_level` (lib.rs:41-48): set the boxed logger with colors on;
only on success (`Result::map`) set the global max level; `?` propagates
the registration error. -/
def init_with_level (lf : LevelFilter) (g : GlobalState) :
    GlobalState × Option SetLoggerError :=
  match set_boxed_logger { level := lf, enable_colors := true } g with
  | (g1, none) => (set_max_level lf g1, none)
  | (g1, some e) => (g1, some e)

/-- `init_with_level_and_without_colors` (lib.rs:68-75): same but with
colors off. -/
def init_with_level_and_without_colors (lf : LevelFilter) (g : GlobalState) :
    GlobalState × Option SetLoggerError :=
  match set_boxed_logger { level := lf, enable_colors := false } g with
  | (g1, none) => (set_max_level lf g1, none)
  | (g1, some e) => (g1, some e)

/-- `init` (lib.rs:94-96): register with threshold `Trace`. -/
def init (g : GlobalState) : GlobalState × Option SetLoggerError :=
  init_with_level .trace g

/-- The always-succeeding failure oracle. -/
def noFail : Nat → Option String := fun _ => none

/-- An oracle whose underlying operation number `k` fails with an I/O
error, all others succeeding. -/
def failAt (k : Nat) : Nat → Option String :=
  fun i => if i = k then some "io error" else none

/-- One abstract formatting step of `log_result`: set a foreground color,
reset the style, or write a text segment. -/
inductive SinkOp
  | setFg (c : Nat)
  | resetStyle
  | writeStr (s : String)
  deriving DecidableEq, Repr

/-- What one step emits on the given sink variant; `none` means the step
performs no underlying I/O at all (color operations on Fallback). -/
def LogSink.perform (v : SinkVariant) (op : SinkOp) : Option OutItem :=
  match op, v with
  | .setFg _, .Fallback => none
  | .resetStyle, .Fallback => none
  | .setFg c, .Terminal => some (.escFg c)
  | .resetStyle, .Terminal => some .escReset
  | .writeStr s, _ => some (.text s)

/-- The sink method a step corresponds to. -/
def stepOf (fail : Nat → Option String) (v : SinkVariant) :
    SinkOp → SinkRun → SinkRun × Option String
  | .setFg c => LogSink.fg fail v c
  | .resetStyle => LogSink.reset fail v
  | .writeStr str => LogSink.write fail v str

/-- Run a list of steps left to right, stopping at the first failing
underlying operation. -/
def runOps (fail : Nat → Option String) (v : SinkVariant) :
    List SinkOp → SinkRun → SinkRun × Option String
  | [], s => (s, none)
  | op :: rest, s =>
    match LogSink.perform v op with
    | none => runOps fail v rest s
    | some item =>
      match fail s.idx with
      | some e => (s, some e)
      | none => runOps fail v rest { out := s.out ++ [item], idx := s.idx + 1 }

/-- The fixed, ordered step sequence of `Logger::log_result`
(lib.rs:121-147): timestamp, origin, level tag, style reset, message. -/
def opList (colors : Bool) (lvl : Level) (mp : Option String)
    (msg ts : String) : List SinkOp :=
  (if colors then [SinkOp.setFg BRIGHT_BLACK] else []) ++
  [SinkOp.writeStr ("[" ++ ts ++ "] ")] ++
  (if colors then [SinkOp.setFg BRIGHT_BLUE] else []) ++
  [SinkOp.writeStr ("[" ++ mp.getD "?" ++ "] ")] ++
  (if colors then [SinkOp.setFg (levelColor lvl)] else []) ++
  [SinkOp.writeStr ("[" ++ lvl.display ++ "] ")] ++
  (if colors then [SinkOp.resetStyle] else []) ++
  [SinkOp.writeStr (msg ++ "\n")]

/-- Claim C1: for every log level L and every configured threshold T, the
logger's enabled check returns true iff L is at most T under the ordering
Error < Warn < Info < Debug < Trace (the discriminant order, whose
strict chain is stated alongside).  `Logger.enabled` is a pure total
function of its arguments: no side effects, no failure mode. -/
theorem c1_enabled_iff_le (L T : Level) (c : Bool) :
    Logger.enabled ⟨T.toFilter, c⟩ ⟨L⟩ = decide (L.toNat ≤ T.toNat) ∧
    Level.error.toNat < Level.warn.toNat ∧
    Level.warn.toNat < Level.info.toNat ∧
    Level.info.toNat < Level.debug.toNat ∧
    Level.debug.toNat < Level.trace.toNat := by
  refine ⟨?_, by decide, by decide, by decide, by decide⟩
  cases L <;> cases T <;> rfl

/-- Claim C4: a record whose level does not pass the filter produces no
observable effect at all: `Logger.log` returns the empty effect trace, so
no sink is acquired and zero bytes are written. -/
theorem c4_disabled_no_effect (l : Logger) (fail : Nat → Option String)
    (avail : Bool) (r : Record) (ts : String)
    (h : l.enabled ⟨r.level⟩ = false) :
    l.log fail avail r ts = [] := by
  simp [Logger.log, h]

/-- Witness for C4: threshold Warn filters an Info record entirely. -/
theorem c4_witness :
    Logger.enabled ⟨.warn, true⟩ ⟨Level.info⟩ = false ∧
    Logger.log ⟨.warn, true⟩ noFail true ⟨Level.info, some "net", "listening"⟩ "T" = [] :=
  ⟨rfl, c4_disabled_no_effect ⟨.warn, true⟩ noFail true ⟨Level.info, some "net", "listening"⟩ "T" rfl⟩

/-- Claim C9: sink acquisition is total by construction (`LogSink.new` is
a total function), returns the Terminal variant exactly when a terminal
handle is available and the Fallback variant otherwise; on Fallback, the
color and reset operations succeed trivially and write nothing (the run
state is returned unchanged). -/
theorem c9_sink_total_fallback_noop (avail : Bool)
    (fail : Nat → Option String) (c : Nat) (s : SinkRun) :
    (LogSink.new avail = SinkVariant.Terminal ↔ avail = true) ∧
    (LogSink.new avail = SinkVariant.Fallback ↔ avail = false) ∧
    LogSink.fg fail SinkVariant.Fallback c s = (s, none) ∧
    LogSink.reset fail SinkVariant.Fallback s = (s, none) := by
  refine ⟨?_, ?_, rfl, rfl⟩ <;> cases avail <;> simp [LogSink.new]

/-- Claim C10: the threshold type has an Off value below Error; a logger
configured with threshold Off rejects every level, and its log method
produces no effects for any record. -/
theorem c10_off_threshold (c : Bool) (fail : Nat → Option String)
    (avail : Bool) (r : Record) (ts : String) :
    Logger.enabled ⟨.off, c⟩ ⟨r.level⟩ = false ∧
    Logger.log ⟨.off, c⟩ fail avail r ts = [] ∧
    LevelFilter.off.toNat < LevelFilter.error.toNat := by
  have h : Logger.enabled ⟨.off, c⟩ ⟨r.level⟩ = false := by
    cases r.level <;> rfl
  exact ⟨h, by simp [Logger.log, h], by decide⟩

/-- Claim C3: with colors enabled on the terminal sink and no sink
failure, the emitted trace sets the foreground to `levelColor` of the
record's level immediately before the level tag, and `levelColor` is
exactly the fixed table Error to bright red, Warn to bright yellow, Info
to bright green, Debug to bright cyan, Trace to bright white. -/
theorem c3_level_color_table (t : LevelFilter) (r : Record) (ts : String) :
    (Logger.log_result ⟨t, true⟩ noFail true r ts).2.1.out =
      [OutItem.escFg BRIGHT_BLACK, OutItem.text ("[" ++ ts ++ "] "),
       OutItem.escFg BRIGHT_BLUE,
       OutItem.text ("[" ++ r.module_path.getD "?" ++ "] "),
       OutItem.escFg (levelColor r.level),
       OutItem.text ("[" ++ r.level.display ++ "] "),
       OutItem.escReset, OutItem.text (r.args ++ "\n")] ∧
    levelColor Level.error = BRIGHT_RED ∧
    levelColor Level.warn = BRIGHT_YELLOW ∧
    levelColor Level.info = BRIGHT_GREEN ∧
    levelColor Level.debug = BRIGHT_CYAN ∧
    levelColor Level.trace = BRIGHT_WHITE :=
  ⟨rfl, rfl, rfl, rfl, rfl, rfl⟩

/-- No-newline is preserved by string append. -/
theorem no_newline_append {a b : String} (ha : '\n' ∉ a.data)
    (hb : '\n' ∉ b.data) : '\n' ∉ (a ++ b).data := by
  rw [String.data_append]
  intro h
  rcases List.mem_append.1 h with h | h
  · exact ha h
  · exact hb h

/-- The level tag never contains a newline. -/
theorem display_no_newline (lvl : Level) : '\n' ∉ (Level.display lvl).data := by
  cases lvl <;> decide

/-- Claim C2: for a record that passes the filter, with colors disabled
and no sink failure, handling the record acquires one sink and writes the
four plain text segments, with no escape items; their concatenation is one
line of the form timestamp, origin (module path or the literal question
mark), level tag, message, followed by a single line terminator, provided
the record's components contain no newline themselves. -/
theorem c2_plain_format (t : LevelFilter) (avail : Bool) (r : Record)
    (ts : String)
    (hen : Logger.enabled ⟨t, false⟩ ⟨r.level⟩ = true)
    (hts : '\n' ∉ ts.data)
    (hmp : '\n' ∉ (r.module_path.getD "?").data)
    (hmsg : '\n' ∉ r.args.data) :
    Logger.log ⟨t, false⟩ noFail avail r ts =
      [LogEffect.acquireSink (LogSink.new avail),
       LogEffect.sinkOut
         [OutItem.text ("[" ++ ts ++ "] "),
          OutItem.text ("[" ++ r.module_path.getD "?" ++ "] "),
          OutItem.text ("[" ++ r.level.display ++ "] "),
          OutItem.text (r.args ++ "\n")]] ∧
    ((("[" ++ ts ++ "] ") ++ ("[" ++ r.module_path.getD "?" ++ "] ")) ++
        ("[" ++ r.level.display ++ "] ")) ++ (r.args ++ "\n") =
      (((("[" ++ ts ++ "] ") ++ ("[" ++ r.module_path.getD "?" ++ "] ")) ++
        ("[" ++ r.level.display ++ "] ")) ++ r.args) ++ "\n" ∧
    '\n' ∉ ((((("[" ++ ts ++ "] ") ++ ("[" ++ r.module_path.getD "?" ++ "] ")) ++
        ("[" ++ r.level.display ++ "] ")) ++ r.args)).data := by
  have hres : Logger.log_result ⟨t, false⟩ noFail avail r ts =
      (LogSink.new avail,
       { out := [OutItem.text ("[" ++ ts ++ "] "),
                 OutItem.text ("[" ++ r.module_path.getD "?" ++ "] "),
                 OutItem.text ("[" ++ r.level.display ++ "] "),
                 OutItem.text (r.args ++ "\n")], idx := 4 }, none) := rfl
  refine ⟨?_, ?_, ?_⟩
  · simp [Logger.log, hen, hres]
  · simp only [String.append_assoc]
  · have h1 : '\n' ∉ ("[" ++ ts ++ "] ").data := by
      refine no_newline_append (no_newline_append ?_ hts) ?_ <;> decide
    have h2 : '\n' ∉ ("[" ++ r.module_path.getD "?" ++ "] ").data := by
      refine no_newline_append (no_newline_append ?_ hmp) ?_ <;> decide
    have h3 : '\n' ∉ ("[" ++ r.level.display ++ "] ").data := by
      refine no_newline_append (no_newline_append ?_ (display_no_newline r.level)) ?_ <;> decide
    exact no_newline_append (no_newline_append (no_newline_append h1 h2) h3) hmsg

/-- Witness for C2: a concrete Info record at threshold Trace. -/
theorem c2_witness :
    Logger.enabled ⟨.trace, false⟩ ⟨Level.info⟩ = true ∧
    '\n' ∉ "2017-01-01T00:00:00Z".data ∧
    '\n' ∉ ((some "net" : Option String).getD "?").data ∧
    '\n' ∉ "listening".data ∧
    Logger.log ⟨.trace, false⟩ noFail true
        ⟨Level.info, some "net", "listening"⟩ "2017-01-01T00:00:00Z" =
      [LogEffect.acquireSink (LogSink.new true),
       LogEffect.sinkOut
         [OutItem.text "[2017-01-01T00:00:00Z] ", OutItem.text "[net] ",
          OutItem.text "[INFO] ", OutItem.text "listening\n"]] :=
  ⟨rfl, by decide, by decide, by decide,
    (c2_plain_format .trace true ⟨Level.info, some "net", "listening"⟩
      "2017-01-01T00:00:00Z" rfl (by decide) (by decide) (by decide)).1⟩

/-- Claim C6 (amendable parts modelled from the spec where the facade's
globals live outside this repository): when a backend is already
installed, each registration entry point fails with the already-set error
and returns the global state unchanged, so the first logger's threshold
and color configuration stay active and the global maximum level is not
touched. -/
theorem c6_second_registration (lf : LevelFilter) (g : GlobalState)
    (L0 : Logger) (h : g.backend = some L0) :
    init_with_level lf g = (g, some SetLoggerError.alreadySet) ∧
    init_with_level_and_without_colors lf g = (g, some SetLoggerError.alreadySet) ∧
    init g = (g, some SetLoggerError.alreadySet) ∧
    (init_with_level lf g).1.backend = some L0 ∧
    (init_with_level lf g).1.maxLevel = g.maxLevel := by
  have hb : ∀ l : Logger, set_boxed_logger l g = (g, some SetLoggerError.alreadySet) := by
    intro l
    simp [set_boxed_logger, h]
  refine ⟨?_, ?_, ?_, ?_, ?_⟩ <;>
    simp [init, init_with_level, init_with_level_and_without_colors, hb, h]

/-- Witness for C6: a second registration over an installed Warn logger. -/
theorem c6_witness :
    (GlobalState.mk (some ⟨.warn, false⟩) .warn).backend = some ⟨.warn, false⟩ ∧
    init_with_level .debug ⟨some ⟨.warn, false⟩, .warn⟩ =
      (⟨some ⟨.warn, false⟩, .warn⟩, some SetLoggerError.alreadySet) :=
  ⟨rfl, (c6_second_registration .debug ⟨some ⟨.warn, false⟩, .warn⟩
    ⟨.warn, false⟩ rfl).1⟩

/-- Claim C7: on a fresh state, the default entry point installs a logger
with threshold Trace and colors enabled, and the plain entry point
installs a logger with the given threshold and colors disabled; both set
the global maximum level to the installed threshold. -/
theorem c7_entry_points (lf : LevelFilter) (g : GlobalState)
    (h : g.backend = none) :
    init g = (⟨some ⟨.trace, true⟩, .trace⟩, none) ∧
    init_with_level_and_without_colors lf g = (⟨some ⟨lf, false⟩, lf⟩, none) := by
  obtain ⟨b, m⟩ := g
  simp only at h
  subst h
  constructor <;> rfl

/-- Witness for C7: registration on the empty state. -/
theorem c7_witness :
    (GlobalState.mk none .off).backend = none ∧
    init ⟨none, .off⟩ = (⟨some ⟨.trace, true⟩, .trace⟩, none) :=
  ⟨rfl, (c7_entry_points .warn ⟨none, .off⟩ rfl).1⟩

/-- Claim C5, amended: when a record passes the filter and formatting
fails with a sink error, `Logger.log` swallows the error (its effect trace
is its entire observable behavior; nothing is propagated) and reports it
as the diagnostic line `Logging failed: <e>` printed on standard output,
after the sink acquisition and whatever partial output was written. -/
theorem c5_error_swallowed (l : Logger) (fail : Nat → Option String)
    (avail : Bool) (r : Record) (ts : String) (e : String)
    (hen : l.enabled ⟨r.level⟩ = true)
    (herr : (l.log_result fail avail r ts).2.2 = some e) :
    l.log fail avail r ts =
      [LogEffect.acquireSink (l.log_result fail avail r ts).1,
       LogEffect.sinkOut (l.log_result fail avail r ts).2.1.out,
       LogEffect.stdoutLine ("Logging failed: " ++ e)] := by
  rcases hres : l.log_result fail avail r ts with ⟨v, s, err⟩
  rw [hres] at herr
  simp only at herr
  subst herr
  simp [Logger.log, hen, hres]

/-- Witness for C5: a failing first write on the fallback sink. -/
theorem c5_witness :
    Logger.enabled ⟨.trace, false⟩ ⟨Level.error⟩ = true ∧
    (Logger.log_result ⟨.trace, false⟩ (failAt 0) false
      ⟨Level.error, none, "m"⟩ "T").2.2 = some "io error" ∧
    Logger.log ⟨.trace, false⟩ (failAt 0) false ⟨Level.error, none, "m"⟩ "T" =
      [LogEffect.acquireSink (Logger.log_result ⟨.trace, false⟩ (failAt 0) false
          ⟨Level.error, none, "m"⟩ "T").1,
       LogEffect.sinkOut (Logger.log_result ⟨.trace, false⟩ (failAt 0) false
          ⟨Level.error, none, "m"⟩ "T").2.1.out,
       LogEffect.stdoutLine ("Logging failed: " ++ "io error")] :=
  ⟨rfl, rfl, c5_error_swallowed ⟨.trace, false⟩ (failAt 0) false
    ⟨Level.error, none, "m"⟩ "T" "io error" rfl rfl⟩

/-- Counterexample for C5 as stated: at a concrete failing input the
diagnostic is printed on standard output (the `stdoutLine` effect), while
zero bytes reach the fallback error stream (its `sinkOut` trace is empty),
so the error is not reported by printing to the fallback stream. -/
theorem c5_counterexample :
    Logger.log ⟨.trace, false⟩ (failAt 0) false ⟨Level.error, none, "m"⟩ "T" =
      [LogEffect.acquireSink SinkVariant.Fallback, LogEffect.sinkOut [],
       LogEffect.stdoutLine "Logging failed: io error"] := rfl

/-- Running no steps returns the state unchanged. -/
theorem runOps_nil (fail : Nat → Option String) (v : SinkVariant) :
    runOps fail v [] = fun s => (s, none) :=
  funext fun _ => rfl

/-- One step of `runOps` is the corresponding sink method chained by the
short-circuiting `?` semantics. -/
theorem runOps_cons (fail : Nat → Option String) (v : SinkVariant)
    (op : SinkOp) (rest : List SinkOp) :
    runOps fail v (op :: rest) =
      fun s => andThen (stepOf fail v op s) (runOps fail v rest) := by
  funext s
  rcases h : fail s.idx with _ | e <;> cases op <;> cases v <;>
    simp [runOps, andThen, stepOf, LogSink.fg, LogSink.reset, LogSink.write,
      LogSink.perform, ioStep, h]

/-- Chaining a fallible step with the trivial continuation is the step. -/
theorem andThen_pure (r : SinkRun × Option String) :
    andThen r (fun s => (s, none)) = r := by
  rcases r with ⟨s, _ | e⟩ <;> rfl

/-- The output of a run from an arbitrary start state is the start output
followed by what the run emits from the empty output. -/
theorem runOps_out_append (fail : Nat → Option String) (v : SinkVariant)
    (ops : List SinkOp) :
    ∀ o i, (runOps fail v ops ⟨o, i⟩).1.out =
      o ++ (runOps fail v ops ⟨[], i⟩).1.out := by
  induction ops with
  | nil => intro o i; simp [runOps]
  | cons op rest ih =>
    intro o i
    cases hp : LogSink.perform v op with
    | none => simp only [runOps, hp]; exact ih o i
    | some item =>
      rcases hf : fail i with _ | e
      · simp only [runOps, hp, hf]
        rw [ih (o ++ [item]) (i + 1), ih ([] ++ [item]) (i + 1)]
        simp [List.append_assoc]
      · simp [runOps, hp, hf]

/-- Whatever a run emits is an in-order prefix of what the same run emits
when no underlying operation fails: a failure aborts the remaining steps
and nothing out of order is ever written. -/
theorem runOps_prefix_noFail (fail : Nat → Option String) (v : SinkVariant)
    (ops : List SinkOp) :
    ∀ i, (runOps fail v ops ⟨[], i⟩).1.out <+:
      (runOps noFail v ops ⟨[], i⟩).1.out := by
  induction ops with
  | nil => intro i; exact List.nil_prefix
  | cons op rest ih =>
    intro i
    cases hp : LogSink.perform v op with
    | none =>
      simp only [runOps, hp]
      exact ih i
    | some item =>
      rcases hf : fail i with _ | e
      · simp only [runOps, hp, hf, noFail]
        rw [runOps_out_append fail v rest ([] ++ [item]) (i + 1),
          runOps_out_append noFail v rest ([] ++ [item]) (i + 1)]
        obtain ⟨tl, htl⟩ := ih (i + 1)
        exact ⟨tl, by rw [List.append_assoc, htl]⟩
      · simp only [runOps, hp, hf]
        exact List.nil_prefix

/-- `log_result` is exactly the left-to-right run of the fixed ordered
step list: timestamp, origin, level tag, style reset, message. -/
theorem log_result_eq_runOps (l : Logger) (fail : Nat → Option String)
    (avail : Bool) (r : Record) (ts : String) :
    l.log_result fail avail r ts =
      (LogSink.new avail,
       runOps fail (LogSink.new avail)
         (opList l.enable_colors r.level r.module_path r.args ts) ⟨[], 0⟩) := by
  obtain ⟨lv, ec⟩ := l
  obtain ⟨rl, rm, ra⟩ := r
  cases ec
  · have hop : opList false rl rm ra ts =
        [SinkOp.writeStr ("[" ++ ts ++ "] "),
         SinkOp.writeStr ("[" ++ rm.getD "?" ++ "] "),
         SinkOp.writeStr ("[" ++ rl.display ++ "] "),
         SinkOp.writeStr (ra ++ "\n")] := rfl
    rw [hop]
    simp only [runOps_cons, runOps_nil, andThen_pure, stepOf]
    rfl
  · have hop : opList true rl rm ra ts =
        [SinkOp.setFg BRIGHT_BLACK,
         SinkOp.writeStr ("[" ++ ts ++ "] "),
         SinkOp.setFg BRIGHT_BLUE,
         SinkOp.writeStr ("[" ++ rm.getD "?" ++ "] "),
         SinkOp.setFg (levelColor rl),
         SinkOp.writeStr ("[" ++ rl.display ++ "] "),
         SinkOp.resetStyle,
         SinkOp.writeStr (ra ++ "\n")] := rfl
    rw [hop]
    simp only [runOps_cons, runOps_nil, andThen_pure, stepOf]
    rfl

/-- Claim C8: formatting performs its steps in the fixed order timestamp,
origin, level tag, style reset, message (the equation with `runOps` over
`opList`); whatever is emitted under any failure oracle is an in-order
prefix of the failure-free output, so a failing operation aborts every
later step; in particular a failure at the origin-segment write (the
fourth underlying operation of a colored terminal run) leaves exactly the
three earlier items written and aborts the rest. -/
theorem c8_fixed_order_abort (l : Logger) (fail : Nat → Option String)
    (avail : Bool) (r : Record) (ts : String) :
    l.log_result fail avail r ts =
      (LogSink.new avail,
       runOps fail (LogSink.new avail)
         (opList l.enable_colors r.level r.module_path r.args ts) ⟨[], 0⟩) ∧
    (l.log_result fail avail r ts).2.1.out <+:
      (l.log_result noFail avail r ts).2.1.out ∧
    (Logger.log_result ⟨.trace, true⟩ (failAt 3) true r ts).2 =
      ({ out := [OutItem.escFg BRIGHT_BLACK, OutItem.text ("[" ++ ts ++ "] "),
                 OutItem.escFg BRIGHT_BLUE], idx := 3 }, some "io error") := by
  refine ⟨log_result_eq_runOps l fail avail r ts, ?_, rfl⟩
  rw [log_result_eq_runOps l fail avail r ts,
    log_result_eq_runOps l noFail avail r ts]
  exact runOps_prefix_noFail fail (LogSink.new avail)
    (opList l.enable_colors r.level r.module_path r.args ts) 0

end Mowl
